import Mathlib

/-!
Verification of the token lifecycle engine of the strava-node-api service.

The repository has two revisions of the engine:

* the multi-user revision (src/index.js): `ensureValidToken(userId)` looks a
  TokenRecord up in the external token store, serves the cached access token
  while `now < expires_at`, and otherwise calls `refreshAccessToken(userId)`,
  which fetches the stored refresh token, exchanges it with the OAuth
  provider, posts the new triple back to the store (write failures are
  swallowed) and returns the new access token;
* the global-state revision (src/unnamed/part_000): the same logic, but the
  token triple lives in process-wide variables `accessToken`, `refreshToken`,
  `tokenExpiresAt`, mutated in place by `refreshAccessToken()`.

Both are embedded below as pure functions over an oracle environment that
fixes the responses of the token store and of the OAuth provider, together
with the current wall-clock second.  Each call also produces the list of
network requests it issued, so that claims about "zero provider calls" or
"no store write" are statements about that trace.
-/

/-- The fields of the store's `GET /tokens/{userId}` response that
`ensureValidToken` reads (`data.access_token` and `data.expires_at`). -/
structure StoredTokens where
  access_token : String
  expires_at : Int
  deriving DecidableEq

/-- A `{access_token, refresh_token, expires_at}` triple as returned by the
OAuth provider's token endpoint. -/
structure Triple where
  access_token : String
  refresh_token : String
  expires_at : Int
  deriving DecidableEq

/-- The body of the `POST /tokens` upsert issued by `refreshAccessToken`
in src/index.js. -/
structure WriteReq where
  user_id : String
  access_token : String
  refresh_token : String
  expires_at : Int
  deriving DecidableEq

/-- One network request issued by the multi-user revision of the engine. -/
inductive NetEvent where
  | storeGetTokens (userId : String)
  | storeGetRefresh (userId : String)
  | providerRefresh (refreshTok : String)
  | storePostTokens (req : WriteReq)
  deriving DecidableEq

/-- Oracle environment for the multi-user revision: the outcome of each
external call during one engine invocation, plus the current time in
seconds.  `Except.error s` models the HTTP client throwing with message `s`;
`refreshLookup` returning `Except.ok none` models a response whose
`refresh_token` field is absent or falsy. -/
structure Env where
  now : Int
  tokensLookup : String → Except String StoredTokens
  refreshLookup : String → Except String (Option String)
  provider : String → Except String Triple
  storeWrite : WriteReq → Except String Unit

/-- Embedding of `refreshAccessToken(athleteId)` from src/index.js:
guard on a missing athlete id, fetch the stored refresh token
(`GET /refresh-tokens/{athleteId}`), reject when none is stored, exchange it
at the provider (wrapping a rejection as
`Strava token refresh failed: <detail>`), post the new triple to the store
with the write failure swallowed, and return the new access token.  The
second component is the trace of network requests issued. -/
def refreshAccessToken (athleteId : String) (env : Env) :
    Except String String × List NetEvent :=
  if athleteId = "" then
    (Except.error "No athlete ID available for token refresh", [])
  else
    match env.refreshLookup athleteId with
    | Except.error e =>
        (Except.error ("Failed to fetch from runaway service: " ++ e),
         [NetEvent.storeGetRefresh athleteId])
    | Except.ok none =>
        (Except.error "No refresh token found in runaway service",
         [NetEvent.storeGetRefresh athleteId])
    | Except.ok (some storedRefreshToken) =>
        match env.provider storedRefreshToken with
        | Except.error e =>
            (Except.error ("Strava token refresh failed: " ++ e),
             [NetEvent.storeGetRefresh athleteId,
              NetEvent.providerRefresh storedRefreshToken])
        | Except.ok t =>
            (Except.ok t.access_token,
             [NetEvent.storeGetRefresh athleteId,
              NetEvent.providerRefresh storedRefreshToken,
              NetEvent.storePostTokens
                ⟨athleteId, t.access_token, t.refresh_token, t.expires_at⟩])

/-- Embedding of the body of `ensureValidToken(userId)` from src/index.js,
inside the outer try but with the outer catch not yet applied: reject an
empty user id, look the record up in the store, serve the cached token while
`now < expires_at`, otherwise refresh; the inner catch both falls through to
a refresh when the lookup throws and retries the refresh when the first
refresh attempt throws. -/
def ensureValidTokenBody (userId : String) (env : Env) :
    Except String String × List NetEvent :=
  if userId = "" then
    (Except.error "User ID is required", [])
  else
    match env.tokensLookup userId with
    | Except.ok rec =>
        if env.now < rec.expires_at then
          (Except.ok rec.access_token, [NetEvent.storeGetTokens userId])
        else
          match refreshAccessToken userId env with
          | (Except.ok tok, tr) =>
              (Except.ok tok, NetEvent.storeGetTokens userId :: tr)
          | (Except.error _, tr) =>
              match refreshAccessToken userId env with
              | (r2, tr2) =>
                  (r2, NetEvent.storeGetTokens userId :: (tr ++ tr2))
    | Except.error _ =>
        match refreshAccessToken userId env with
        | (r, tr) => (r, NetEvent.storeGetTokens userId :: tr)

/-- Embedding of `ensureValidToken(userId)` from src/index.js: the outer
catch replaces any error escaping the body with the generic
`Failed to ensure valid token`. -/
def ensureValidToken (userId : String) (env : Env) :
    Except String String × List NetEvent :=
  match ensureValidTokenBody userId env with
  | (Except.ok tok, tr) => (Except.ok tok, tr)
  | (Except.error _, tr) => (Except.error "Failed to ensure valid token", tr)

/-- JavaScript `a || b` on an optional string `a`: the fallback fires when
the field is absent or the empty string (falsy). -/
def jsOr (a : Option String) (b : String) : String :=
  match a with
  | some s => if s = "" then b else s
  | none => b

/-- The fields of a caught error object that `handleError` reads:
`error.message`, `error.response?.status`, `error.response?.data?.message`. -/
structure ErrObj where
  message : String
  responseStatus : Option Int
  responseDataMessage : Option String

/-- Embedding of `handleError(error, res)` from src/index.js (identical in
src/unnamed/part_000), returning the string sent to the client. -/
def handleError (e : ErrObj) : String :=
  if e.responseStatus = some 401 then
    "Authentication expired. Please login again at the home page."
  else
    "Error: " ++ jsOr e.responseDataMessage e.message

/-- The body of the `POST` upsert to the refresh-token endpoint issued by
`refreshAccessToken` in src/unnamed/part_000. -/
structure GWriteReq where
  athlete_id : String
  refresh_token : String
  access_token : String
  expires_at : Int
  deriving DecidableEq

/-- One network request issued by the global-state revision of the engine. -/
inductive GEvent where
  | storeGetRefresh (athleteId : String)
  | providerRefresh (refreshTok : String)
  | storePostTokens (req : GWriteReq)
  deriving DecidableEq

/-- The process-wide mutable variables of src/unnamed/part_000:
`accessToken`, `refreshToken`, `tokenExpiresAt`, `athleteId`. -/
structure GState where
  accessToken : String
  refreshToken : String
  tokenExpiresAt : Int
  athleteId : String
  deriving DecidableEq

/-- Oracle environment for the global-state revision. -/
structure GEnv where
  now : Int
  refreshLookup : String → Except String (Option String)
  provider : String → Except String Triple
  storeWrite : GWriteReq → Except String Unit

/-- Embedding of `refreshAccessToken()` from src/unnamed/part_000: same
store lookup and provider exchange as the multi-user revision, but on
success the three global token variables are overwritten before the
(failure-swallowed) store write.  The result carries the value returned or
error thrown, the final global state, and the trace of requests. -/
def refreshAccessTokenG (env : GEnv) (st : GState) :
    Except String String × GState × List GEvent :=
  if st.athleteId = "" then
    (Except.error "No athlete ID available for token refresh", st, [])
  else
    match env.refreshLookup st.athleteId with
    | Except.error e =>
        (Except.error ("Failed to fetch from runaway service: " ++ e), st,
         [GEvent.storeGetRefresh st.athleteId])
    | Except.ok none =>
        (Except.error "No refresh token found in runaway service", st,
         [GEvent.storeGetRefresh st.athleteId])
    | Except.ok (some storedRefreshToken) =>
        match env.provider storedRefreshToken with
        | Except.error e =>
            (Except.error ("Strava token refresh failed: " ++ e), st,
             [GEvent.storeGetRefresh st.athleteId,
              GEvent.providerRefresh storedRefreshToken])
        | Except.ok t =>
            (Except.ok t.access_token,
             { st with
                accessToken := t.access_token
                refreshToken := t.refresh_token
                tokenExpiresAt := t.expires_at },
             [GEvent.storeGetRefresh st.athleteId,
              GEvent.providerRefresh storedRefreshToken,
              GEvent.storePostTokens
                ⟨st.athleteId, t.refresh_token, t.access_token, t.expires_at⟩])

/-- Embedding of `ensureValidToken()` from src/unnamed/part_000: refresh
when `now >= tokenExpiresAt`, otherwise serve the cached global token; the
catch replaces any refresh error with the generic
`Failed to ensure valid token`. -/
def ensureValidTokenG (env : GEnv) (st : GState) :
    Except String String × GState × List GEvent :=
  if st.tokenExpiresAt ≤ env.now then
    match refreshAccessTokenG env st with
    | (Except.ok tok, st2, tr) => (Except.ok tok, st2, tr)
    | (Except.error _, st2, tr) =>
        (Except.error "Failed to ensure valid token", st2, tr)
  else
    (Except.ok st.accessToken, st, [])

/-- A store state with a still-valid token for user 42: `expires_at = 200`
while the clock reads 100. -/
def envHit : Env where
  now := 100
  tokensLookup := fun u =>
    if u = "42" then Except.ok ⟨"a1", 200⟩ else Except.error "Request failed with status code 404"
  refreshLookup := fun _ => Except.ok (some "r_unused")
  provider := fun _ => Except.ok ⟨"a_fresh", "r_fresh", 21700⟩
  storeWrite := fun _ => Except.ok ()

/-- A store state with an expired token for user 42 (`expires_at = 50`,
clock at 100), stored refresh token `r1`, a provider that rotates to
`{a2, r2, 21700}`, and a store whose write endpoint is down. -/
def envWfail : Env where
  now := 100
  tokensLookup := fun _ => Except.ok ⟨"a_old", 50⟩
  refreshLookup := fun _ => Except.ok (some "r1")
  provider := fun _ => Except.ok ⟨"a2", "r2", 21700⟩
  storeWrite := fun _ => Except.error "store down"

/-- A store state with a token for user 42 expiring exactly now
(`expires_at = 100 = now`), stored refresh token `r1`, and a provider that
rejects the exchange with detail `invalid grant`. -/
def envReject : Env where
  now := 100
  tokensLookup := fun _ => Except.ok ⟨"a_old", 100⟩
  refreshLookup := fun _ => Except.ok (some "r1")
  provider := fun _ => Except.error "invalid grant"
  storeWrite := fun _ => Except.ok ()

/-- A store that throws 404 on the token lookup and holds no refresh token
for any user. -/
def envNoCred : Env where
  now := 100
  tokensLookup := fun _ => Except.error "Request failed with status code 404"
  refreshLookup := fun _ => Except.ok none
  provider := fun _ => Except.ok ⟨"a2", "r2", 21700⟩
  storeWrite := fun _ => Except.ok ()

/-- An arbitrary healthy environment, used for the empty-user-id claim. -/
def envAny : Env where
  now := 100
  tokensLookup := fun _ => Except.ok ⟨"a1", 200⟩
  refreshLookup := fun _ => Except.ok (some "r1")
  provider := fun _ => Except.ok ⟨"a2", "r2", 21700⟩
  storeWrite := fun _ => Except.ok ()

/-- Global-state revision: a healthy environment whose provider rotates the
pair to `{a2, r2, 21700}`. -/
def genvOk : GEnv where
  now := 100
  refreshLookup := fun _ => Except.ok (some "r1")
  provider := fun _ => Except.ok ⟨"a2", "r2", 21700⟩
  storeWrite := fun _ => Except.ok ()

/-- Global-state revision: an environment whose provider rejects the
exchange with detail `invalid grant`. -/
def genvReject : GEnv where
  now := 100
  refreshLookup := fun _ => Except.ok (some "r1")
  provider := fun _ => Except.error "invalid grant"
  storeWrite := fun _ => Except.ok ()

/-- Global state holding a token that expires exactly now
(`tokenExpiresAt = 100 = now`) for athlete 42. -/
def gstExpired : GState := ⟨"a_old", "r_old", 100, "42"⟩

/-- Number of calls to the OAuth provider token endpoint in a trace. -/
def providerCalls (tr : List NetEvent) : Nat :=
  tr.countP fun ev =>
    match ev with
    | NetEvent.providerRefresh _ => true
    | _ => false

/-- A store state as it reads after the refresh of `envWfail` has been
persisted for user 42: the new record `{a2, 21700}` is returned by the
token lookup, with the clock at 200 still inside the new lifetime. -/
def envAfter : Env where
  now := 200
  tokensLookup := fun _ => Except.ok ⟨"a2", 21700⟩
  refreshLookup := fun _ => Except.ok (some "r2")
  provider := fun _ => Except.ok ⟨"a3", "r3", 40000⟩
  storeWrite := fun _ => Except.ok ()

/-- Helper: shape of a successful `refreshAccessToken` run — lookup, one
provider exchange, one store write of the full new triple. -/
theorem refresh_ok_aux (userId : String) (env : Env) (r : String) (t : Triple)
    (hne : userId ≠ "") (hrl : env.refreshLookup userId = Except.ok (some r))
    (hpv : env.provider r = Except.ok t) :
    refreshAccessToken userId env =
      (Except.ok t.access_token,
       [NetEvent.storeGetRefresh userId, NetEvent.providerRefresh r,
        NetEvent.storePostTokens
          ⟨userId, t.access_token, t.refresh_token, t.expires_at⟩]) := by
  unfold refreshAccessToken
  rw [if_neg hne]
  simp only [hrl, hpv]

/-- Helper: a cache hit — a stored record with `now < expires_at` is served
back unchanged after the single store lookup. -/
theorem cache_hit_aux (userId : String) (env : Env) (rec : StoredTokens)
    (hne : userId ≠ "") (hlk : env.tokensLookup userId = Except.ok rec)
    (hval : env.now < rec.expires_at) :
    ensureValidToken userId env =
      (Except.ok rec.access_token, [NetEvent.storeGetTokens userId]) := by
  have hbody : ensureValidTokenBody userId env =
      (Except.ok rec.access_token, [NetEvent.storeGetTokens userId]) := by
    unfold ensureValidTokenBody
    rw [if_neg hne]
    simp only [hlk]
    rw [if_pos hval]
  unfold ensureValidToken
  rw [hbody]

/-- Claim C1: for every user whose stored TokenRecord has `expires_at`
strictly greater than the current time, `ensureValidToken` returns the
stored `access_token` unchanged and its trace contains zero calls to the
OAuth provider's token endpoint. -/
theorem getValidToken_cache_hit (userId : String) (env : Env)
    (rec : StoredTokens) (hne : userId ≠ "")
    (hlk : env.tokensLookup userId = Except.ok rec)
    (hval : env.now < rec.expires_at) :
    ensureValidToken userId env =
      (Except.ok rec.access_token, [NetEvent.storeGetTokens userId]) ∧
    ∀ r, NetEvent.providerRefresh r ∉ (ensureValidToken userId env).2 := by
  have h := cache_hit_aux userId env rec hne hlk hval
  refine ⟨h, ?_⟩
  intro r
  rw [h]
  simp

/-- Claim C1 witness: a concrete valid record (`expires_at = 200`, clock at
100) is served back with a single store lookup and no provider call. -/
theorem getValidToken_cache_hit_w :
    ensureValidToken "42" envHit =
      (Except.ok "a1", [NetEvent.storeGetTokens "42"]) ∧
    NetEvent.providerRefresh "r1" ∉ (ensureValidToken "42" envHit).2 :=
  ⟨(getValidToken_cache_hit "42" envHit ⟨"a1", 200⟩ (by decide) rfl (by decide)).1,
   (getValidToken_cache_hit "42" envHit ⟨"a1", 200⟩ (by decide) rfl (by decide)).2 "r1"⟩

/-- Claim C2: for every user whose stored TokenRecord has
`expires_at <= now`, `ensureValidToken` performs exactly one provider
refresh call and returns the access token of that provider response. -/
theorem getValidToken_expired_refreshes_once (userId : String) (env : Env)
    (rec : StoredTokens) (r : String) (t : Triple)
    (hne : userId ≠ "") (hlk : env.tokensLookup userId = Except.ok rec)
    (hexp : rec.expires_at ≤ env.now)
    (hrl : env.refreshLookup userId = Except.ok (some r))
    (hpv : env.provider r = Except.ok t) :
    ensureValidToken userId env =
      (Except.ok t.access_token,
       [NetEvent.storeGetTokens userId, NetEvent.storeGetRefresh userId,
        NetEvent.providerRefresh r,
        NetEvent.storePostTokens
          ⟨userId, t.access_token, t.refresh_token, t.expires_at⟩]) ∧
    providerCalls (ensureValidToken userId env).2 = 1 := by
  have hr := refresh_ok_aux userId env r t hne hrl hpv
  have hbody : ensureValidTokenBody userId env =
      (Except.ok t.access_token,
       [NetEvent.storeGetTokens userId, NetEvent.storeGetRefresh userId,
        NetEvent.providerRefresh r,
        NetEvent.storePostTokens
          ⟨userId, t.access_token, t.refresh_token, t.expires_at⟩]) := by
    unfold ensureValidTokenBody
    rw [if_neg hne]
    simp only [hlk]
    rw [if_neg (not_lt.mpr hexp)]
    simp only [hr]
  have h : ensureValidToken userId env =
      (Except.ok t.access_token,
       [NetEvent.storeGetTokens userId, NetEvent.storeGetRefresh userId,
        NetEvent.providerRefresh r,
        NetEvent.storePostTokens
          ⟨userId, t.access_token, t.refresh_token, t.expires_at⟩]) := by
    unfold ensureValidToken
    rw [hbody]
  refine ⟨h, ?_⟩
  rw [h]
  rfl

/-- Claim C2 witness: the expired record of `envWfail` (`expires_at = 50`,
clock at 100) triggers exactly one provider call and the new token `a2` is
returned. -/
theorem getValidToken_expired_refreshes_once_w :
    ensureValidToken "42" envWfail =
      (Except.ok "a2",
       [NetEvent.storeGetTokens "42", NetEvent.storeGetRefresh "42",
        NetEvent.providerRefresh "r1",
        NetEvent.storePostTokens ⟨"42", "a2", "r2", 21700⟩]) ∧
    providerCalls (ensureValidToken "42" envWfail).2 = 1 :=
  getValidToken_expired_refreshes_once "42" envWfail ⟨"a_old", 50⟩ "r1"
    ⟨"a2", "r2", 21700⟩ (by decide) rfl (by decide) rfl rfl

/-- Claim C9: the proxy's error handler maps an upstream 401 to the fixed
re-authenticate message (independently of the upstream body), and every
non-401 error to a message built from the upstream error detail
(`response.data.message` falling back to the error's own message). -/
theorem handleError_maps_401 :
    (∀ e : ErrObj, e.responseStatus = some 401 →
      handleError e =
        "Authentication expired. Please login again at the home page.") ∧
    (∀ e : ErrObj, e.responseStatus ≠ some 401 →
      handleError e = "Error: " ++ jsOr e.responseDataMessage e.message) := by
  constructor
  · intro e h
    unfold handleError
    rw [if_pos h]
  · intro e h
    unfold handleError
    rw [if_neg h]

/-- Claim C9 witness: a 401 with a raw upstream body is rewritten to the
re-authenticate message; a 500 is relayed as `Error: boom`. -/
theorem handleError_maps_401_w :
    handleError ⟨"upstream said no", some 401, some "raw upstream body"⟩ =
      "Authentication expired. Please login again at the home page." ∧
    handleError ⟨"boom", some 500, none⟩ = "Error: boom" :=
  ⟨handleError_maps_401.1 ⟨"upstream said no", some 401, some "raw upstream body"⟩
      rfl,
   (handleError_maps_401.2 ⟨"boom", some 500, none⟩ (by decide)).trans rfl⟩

/-- Claim C4: a successful refresh posts the full new triple — rotated
refresh token included — to the store keyed by the user id, and a
subsequent `ensureValidToken` against a store reflecting that write, within
the new token's lifetime, returns the new access token (not the old one). -/
theorem refresh_persists_full_triple (userId : String) (env : Env)
    (r : String) (t : Triple) (hne : userId ≠ "")
    (hrl : env.refreshLookup userId = Except.ok (some r))
    (hpv : env.provider r = Except.ok t) :
    refreshAccessToken userId env =
      (Except.ok t.access_token,
       [NetEvent.storeGetRefresh userId, NetEvent.providerRefresh r,
        NetEvent.storePostTokens
          ⟨userId, t.access_token, t.refresh_token, t.expires_at⟩]) ∧
    (∀ env2 : Env,
      env2.tokensLookup userId = Except.ok ⟨t.access_token, t.expires_at⟩ →
      env2.now < t.expires_at →
      (ensureValidToken userId env2).1 = Except.ok t.access_token) := by
  refine ⟨refresh_ok_aux userId env r t hne hrl hpv, ?_⟩
  intro env2 hlk2 hval2
  rw [cache_hit_aux userId env2 ⟨t.access_token, t.expires_at⟩ hne hlk2 hval2]

/-- Claim C4 witness: the refresh under `envWfail` posts
`{42, a2, r2, 21700}` to the store, and a later lookup returning that
record (clock at 200 < 21700) serves `a2`. -/
theorem refresh_persists_full_triple_w :
    refreshAccessToken "42" envWfail =
      (Except.ok "a2",
       [NetEvent.storeGetRefresh "42", NetEvent.providerRefresh "r1",
        NetEvent.storePostTokens ⟨"42", "a2", "r2", 21700⟩]) ∧
    (ensureValidToken "42" envAfter).1 = Except.ok "a2" :=
  ⟨(refresh_persists_full_triple "42" envWfail "r1" ⟨"a2", "r2", 21700⟩
      (by decide) rfl rfl).1,
   (refresh_persists_full_triple "42" envWfail "r1" ⟨"a2", "r2", 21700⟩
      (by decide) rfl rfl).2 envAfter rfl (by decide)⟩

/-- Claim C5: when the provider exchange succeeds but the store write
fails, `refreshAccessToken` still returns the freshly obtained access
token; the write was attempted (it is in the trace) and its failure is
swallowed, never propagated. -/
theorem refresh_write_failure_still_returns_token (userId : String)
    (env : Env) (r w : String) (t : Triple) (hne : userId ≠ "")
    (hrl : env.refreshLookup userId = Except.ok (some r))
    (hpv : env.provider r = Except.ok t)
    (hw : env.storeWrite ⟨userId, t.access_token, t.refresh_token, t.expires_at⟩ =
      Except.error w) :
    (refreshAccessToken userId env).1 = Except.ok t.access_token ∧
    NetEvent.storePostTokens ⟨userId, t.access_token, t.refresh_token, t.expires_at⟩ ∈
      (refreshAccessToken userId env).2 := by
  rw [refresh_ok_aux userId env r t hne hrl hpv]
  exact ⟨rfl, by simp⟩

/-- Claim C5 witness: under `envWfail` the store write endpoint is down
(`store down`), yet the refresh returns the new token `a2` and the write
was attempted. -/
theorem refresh_write_failure_still_returns_token_w :
    (refreshAccessToken "42" envWfail).1 = Except.ok "a2" ∧
    NetEvent.storePostTokens ⟨"42", "a2", "r2", 21700⟩ ∈
      (refreshAccessToken "42" envWfail).2 :=
  refresh_write_failure_still_returns_token "42" envWfail "r1" "store down"
    ⟨"a2", "r2", 21700⟩ (by decide) rfl rfl rfl

/-- Claim C8 counterexample: `ensureValidToken ""` does fail with no
network calls, but the error surfaced to the caller is the generic
`Failed to ensure valid token`, not the InvalidInput message
`User ID is required` that the guard raises. -/
theorem empty_user_invalid_input_cex :
    ensureValidToken "" envAny =
      (Except.error "Failed to ensure valid token", []) ∧
    "Failed to ensure valid token" ≠ "User ID is required" :=
  ⟨rfl, by decide⟩

/-- Claim C8 (amended): for every environment, `ensureValidToken ""`
fails and performs no network calls at all; the guard raises the
InvalidInput message `User ID is required`, which the outer catch masks to
the generic `Failed to ensure valid token` before it reaches the caller. -/
theorem empty_user_fails_no_network (env : Env) :
    ensureValidToken "" env =
      (Except.error "Failed to ensure valid token", []) ∧
    ensureValidTokenBody "" env = (Except.error "User ID is required", []) := by
  have hb : ensureValidTokenBody "" env =
      (Except.error "User ID is required", []) := by
    unfold ensureValidTokenBody
    rw [if_pos rfl]
  constructor
  · unfold ensureValidToken
    rw [hb]
  · exact hb

/-- Helper: shape of a `refreshAccessToken` run rejected by the provider. -/
theorem refresh_reject_aux (userId : String) (env : Env) (r detail : String)
    (hne : userId ≠ "")
    (hrl : env.refreshLookup userId = Except.ok (some r))
    (hpv : env.provider r = Except.error detail) :
    refreshAccessToken userId env =
      (Except.error ("Strava token refresh failed: " ++ detail),
       [NetEvent.storeGetRefresh userId, NetEvent.providerRefresh r]) := by
  unfold refreshAccessToken
  rw [if_neg hne]
  simp only [hrl, hpv]

/-- Helper: shape of a `refreshAccessToken` run when the store holds no
refresh token for the user. -/
theorem refresh_nocred_aux (userId : String) (env : Env) (hne : userId ≠ "")
    (hrl : env.refreshLookup userId = Except.ok none) :
    refreshAccessToken userId env =
      (Except.error "No refresh token found in runaway service",
       [NetEvent.storeGetRefresh userId]) := by
  unfold refreshAccessToken
  rw [if_neg hne]
  simp only [hrl]

/-- Helper: a successful `refreshAccessToken` run always contains a
provider call in its trace. -/
theorem refresh_ok_provider_aux (userId : String) (env : Env) (tok : String)
    (tr : List NetEvent)
    (h : refreshAccessToken userId env = (Except.ok tok, tr)) :
    ∃ r, NetEvent.providerRefresh r ∈ tr := by
  unfold refreshAccessToken at h
  by_cases hid : userId = ""
  · rw [if_pos hid] at h
    simp at h
  · rw [if_neg hid] at h
    cases hrl : env.refreshLookup userId with
    | error e =>
      rw [hrl] at h
      simp at h
    | ok o =>
      cases o with
      | none =>
        rw [hrl] at h
        simp at h
      | some r =>
        simp only [hrl] at h
        cases hpv : env.provider r with
        | error e =>
          simp only [hpv] at h
          simp at h
        | ok t =>
          simp only [hpv] at h
          simp only [Prod.mk.injEq] at h
          obtain ⟨h1, h2⟩ := h
          subst h2
          exact ⟨r, by simp⟩

/-- Helper: a successful `refreshAccessTokenG` run (global-state revision)
always contains a provider call in its trace. -/
theorem refresh_ok_provider_auxG (env : GEnv) (st : GState) (tok : String)
    (st2 : GState) (tr : List GEvent)
    (h : refreshAccessTokenG env st = (Except.ok tok, st2, tr)) :
    ∃ r, GEvent.providerRefresh r ∈ tr := by
  unfold refreshAccessTokenG at h
  by_cases hid : st.athleteId = ""
  · rw [if_pos hid] at h
    simp at h
  · rw [if_neg hid] at h
    cases hrl : env.refreshLookup st.athleteId with
    | error e =>
      rw [hrl] at h
      simp at h
    | ok o =>
      cases o with
      | none =>
        rw [hrl] at h
        simp at h
      | some r =>
        simp only [hrl] at h
        cases hpv : env.provider r with
        | error e =>
          simp only [hpv] at h
          simp at h
        | ok t =>
          simp only [hpv] at h
          simp only [Prod.mk.injEq] at h
          obtain ⟨h1, h2, h3⟩ := h
          subst h3
          exact ⟨r, by simp⟩

/-- Claim C3: in both revisions, a stored token whose `expires_at` is at or
before the clock (equality included) is never served without a refresh —
every successful return on the expired path has a provider refresh call in
its trace, so a token served from cache had `expires_at` strictly greater
than `now` at the moment of the check. -/
theorem never_serve_expired_token :
    (∀ (userId : String) (env : Env) (rec : StoredTokens) (tok : String)
        (tr : List NetEvent),
      env.tokensLookup userId = Except.ok rec →
      rec.expires_at ≤ env.now →
      ensureValidToken userId env = (Except.ok tok, tr) →
      ∃ r, NetEvent.providerRefresh r ∈ tr) ∧
    (∀ (genv : GEnv) (st : GState) (tok : String) (st2 : GState)
        (tr : List GEvent),
      st.tokenExpiresAt ≤ genv.now →
      ensureValidTokenG genv st = (Except.ok tok, st2, tr) →
      ∃ r, GEvent.providerRefresh r ∈ tr) := by
  constructor
  · intro userId env rec tok tr hlk hexp hres
    unfold ensureValidToken at hres
    cases hb : ensureValidTokenBody userId env with
    | mk res btr =>
      rw [hb] at hres
      cases res with
      | error e => simp at hres
      | ok a =>
        simp only [Prod.mk.injEq] at hres
        obtain ⟨h1, h2⟩ := hres
        subst h2
        unfold ensureValidTokenBody at hb
        by_cases hid : userId = ""
        · rw [if_pos hid] at hb
          simp at hb
        · rw [if_neg hid] at hb
          simp only [hlk] at hb
          rw [if_neg (not_lt.mpr hexp)] at hb
          cases hr : refreshAccessToken userId env with
          | mk rr rtr =>
            rw [hr] at hb
            cases rr with
            | ok t2 =>
              simp only [Prod.mk.injEq] at hb
              obtain ⟨hb1, hb2⟩ := hb
              subst hb2
              obtain ⟨r, hm⟩ := refresh_ok_provider_aux userId env t2 rtr hr
              exact ⟨r, by simp [hm]⟩
            | error e2 =>
              simp at hb
  · intro genv st tok st2 tr hexp hres
    unfold ensureValidTokenG at hres
    rw [if_pos hexp] at hres
    cases hr : refreshAccessTokenG genv st with
    | mk rr rest =>
      cases rest with
      | mk st3 rtr =>
        rw [hr] at hres
        cases rr with
        | error e => simp at hres
        | ok a =>
          simp only [Prod.mk.injEq] at hres
          obtain ⟨h1, h2, h3⟩ := hres
          subst h3
          obtain ⟨r, hm⟩ := refresh_ok_provider_auxG genv st a st3 rtr hr
          exact ⟨r, hm⟩

/-- Claim C3 witness: in `envWfail` the record expires at 50 with the clock
at 100, and in `gstExpired` the global token expires exactly at the clock
(100 = now); both successful returns carry a provider refresh call. -/
theorem never_serve_expired_token_w :
    (∃ r, NetEvent.providerRefresh r ∈
      [NetEvent.storeGetTokens "42", NetEvent.storeGetRefresh "42",
       NetEvent.providerRefresh "r1",
       NetEvent.storePostTokens ⟨"42", "a2", "r2", 21700⟩]) ∧
    (∃ r, GEvent.providerRefresh r ∈
      [GEvent.storeGetRefresh "42", GEvent.providerRefresh "r1",
       GEvent.storePostTokens ⟨"42", "r2", "a2", 21700⟩]) :=
  ⟨never_serve_expired_token.1 "42" envWfail ⟨"a_old", 50⟩ "a2"
      [NetEvent.storeGetTokens "42", NetEvent.storeGetRefresh "42",
       NetEvent.providerRefresh "r1",
       NetEvent.storePostTokens ⟨"42", "a2", "r2", 21700⟩] rfl (by decide) rfl,
   never_serve_expired_token.2 genvOk gstExpired "a2"
      ⟨"a2", "r2", 21700, "42"⟩
      [GEvent.storeGetRefresh "42", GEvent.providerRefresh "r1",
       GEvent.storePostTokens ⟨"42", "r2", "a2", 21700⟩] (by decide) rfl⟩

/-- Claim C6 counterexample: with the provider rejecting the exchange
(detail `invalid grant`), `refreshAccessToken` raises the detail-carrying
error, but the caller of `ensureValidToken` receives only the generic
`Failed to ensure valid token` — the provider's error detail does not
propagate to the caller of getValidToken. -/
theorem provider_detail_masked_cex :
    (refreshAccessToken "42" envReject).1 =
      Except.error ("Strava token refresh failed: " ++ "invalid grant") ∧
    (ensureValidToken "42" envReject).1 =
      Except.error "Failed to ensure valid token" ∧
    "Failed to ensure valid token" ≠
      "Strava token refresh failed: " ++ "invalid grant" :=
  ⟨rfl, rfl, by decide⟩

/-- Claim C6 (amended): when the provider rejects the exchange,
`refreshAccessToken` fails with `Strava token refresh failed: <detail>`
carrying the provider's error detail, but the outer catch of
`ensureValidToken` masks it, so its caller receives only the generic
`Failed to ensure valid token`. -/
theorem refresh_failed_detail_masked (userId : String) (env : Env)
    (r detail : String) (hne : userId ≠ "")
    (hrl : env.refreshLookup userId = Except.ok (some r))
    (hpv : env.provider r = Except.error detail) :
    (refreshAccessToken userId env).1 =
      Except.error ("Strava token refresh failed: " ++ detail) ∧
    (∀ rec : StoredTokens, env.tokensLookup userId = Except.ok rec →
      rec.expires_at ≤ env.now →
      (ensureValidToken userId env).1 =
        Except.error "Failed to ensure valid token") := by
  have hr := refresh_reject_aux userId env r detail hne hrl hpv
  constructor
  · rw [hr]
  · intro rec hlk hexp
    have hbody : (ensureValidTokenBody userId env).1 =
        Except.error ("Strava token refresh failed: " ++ detail) := by
      unfold ensureValidTokenBody
      rw [if_neg hne]
      simp only [hlk]
      rw [if_neg (not_lt.mpr hexp)]
      simp only [hr]
    cases hb2 : ensureValidTokenBody userId env with
    | mk res btr =>
      rw [hb2] at hbody
      unfold ensureValidToken
      rw [hb2]
      cases res with
      | ok a => simp at hbody
      | error e => rfl

/-- Claim C6 witness: the concrete rejection `invalid grant` under
`envReject`. -/
theorem refresh_failed_detail_masked_w :
    (refreshAccessToken "42" envReject).1 =
      Except.error ("Strava token refresh failed: " ++ "invalid grant") ∧
    (ensureValidToken "42" envReject).1 =
      Except.error "Failed to ensure valid token" :=
  ⟨(refresh_failed_detail_masked "42" envReject "r1" "invalid grant"
      (by decide) rfl rfl).1,
   (refresh_failed_detail_masked "42" envReject "r1" "invalid grant"
      (by decide) rfl rfl).2 ⟨"a_old", 100⟩ rfl (by decide)⟩

/-- Claim C7 counterexample: with the store holding no refresh token,
`refreshAccessToken` raises `No refresh token found in runaway service`,
but the caller of `ensureValidToken` receives only the generic
`Failed to ensure valid token` — the NoCredentials kind does not reach the
caller of getValidToken. -/
theorem no_credentials_masked_cex :
    (refreshAccessToken "42" envNoCred).1 =
      Except.error "No refresh token found in runaway service" ∧
    (ensureValidToken "42" envNoCred).1 =
      Except.error "Failed to ensure valid token" ∧
    "Failed to ensure valid token" ≠
      "No refresh token found in runaway service" :=
  ⟨rfl, rfl, by decide⟩

/-- Claim C7 (amended): when the store's lookup response holds no refresh
token, `refreshAccessToken` fails with the NoCredentials message
`No refresh token found in runaway service`, but the outer catch of
`ensureValidToken` masks it, so its caller receives only the generic
`Failed to ensure valid token`. -/
theorem no_refresh_token_error_masked (userId : String) (env : Env)
    (hne : userId ≠ "")
    (hrl : env.refreshLookup userId = Except.ok none) :
    (refreshAccessToken userId env).1 =
      Except.error "No refresh token found in runaway service" ∧
    (∀ s, env.tokensLookup userId = Except.error s →
      (ensureValidToken userId env).1 =
        Except.error "Failed to ensure valid token") := by
  have hr := refresh_nocred_aux userId env hne hrl
  constructor
  · rw [hr]
  · intro s hlk
    have hbody : ensureValidTokenBody userId env =
        (Except.error "No refresh token found in runaway service",
         [NetEvent.storeGetTokens userId, NetEvent.storeGetRefresh userId]) := by
      unfold ensureValidTokenBody
      rw [if_neg hne]
      simp only [hlk]
      simp only [hr]
    unfold ensureValidToken
    rw [hbody]

/-- Claim C7 witness: the concrete missing-credentials store `envNoCred`. -/
theorem no_refresh_token_error_masked_w :
    (refreshAccessToken "42" envNoCred).1 =
      Except.error "No refresh token found in runaway service" ∧
    (ensureValidToken "42" envNoCred).1 =
      Except.error "Failed to ensure valid token" :=
  ⟨(no_refresh_token_error_masked "42" envNoCred (by decide) rfl).1,
   (no_refresh_token_error_masked "42" envNoCred (by decide) rfl).2
     "Request failed with status code 404" rfl⟩

/-- Helper: a failed `refreshAccessToken` run never posts to the store. -/
theorem refresh_err_no_write_aux (userId : String) (env : Env) (e : String)
    (h : (refreshAccessToken userId env).1 = Except.error e) :
    ∀ req, NetEvent.storePostTokens req ∉ (refreshAccessToken userId env).2 := by
  intro req
  by_cases hid : userId = ""
  · unfold refreshAccessToken
    rw [if_pos hid]
    simp
  · cases hrl : env.refreshLookup userId with
    | error s =>
      unfold refreshAccessToken
      rw [if_neg hid]
      simp only [hrl]
      simp
    | ok o =>
      cases o with
      | none =>
        unfold refreshAccessToken
        rw [if_neg hid]
        simp only [hrl]
        simp
      | some r =>
        cases hpv : env.provider r with
        | error s =>
          unfold refreshAccessToken
          rw [if_neg hid]
          simp only [hrl, hpv]
          simp
        | ok t =>
          exfalso
          rw [refresh_ok_aux userId env r t hid hrl hpv] at h
          simp at h

/-- Helper: a failed `refreshAccessTokenG` run (global-state revision)
never posts to the store and leaves the global token variables unchanged. -/
theorem refresh_err_atomic_auxG (env : GEnv) (st : GState) (e : String)
    (h : (refreshAccessTokenG env st).1 = Except.error e) :
    (∀ req, GEvent.storePostTokens req ∉ (refreshAccessTokenG env st).2.2) ∧
    (refreshAccessTokenG env st).2.1 = st := by
  by_cases hid : st.athleteId = ""
  · unfold refreshAccessTokenG
    rw [if_pos hid]
    exact ⟨by intro req; simp, rfl⟩
  · cases hrl : env.refreshLookup st.athleteId with
    | error s =>
      unfold refreshAccessTokenG
      rw [if_neg hid]
      simp only [hrl]
      exact ⟨by intro req; simp, trivial⟩
    | ok o =>
      cases o with
      | none =>
        unfold refreshAccessTokenG
        rw [if_neg hid]
        simp only [hrl]
        exact ⟨by intro req; simp, trivial⟩
      | some r =>
        cases hpv : env.provider r with
        | error s =>
          unfold refreshAccessTokenG
          rw [if_neg hid]
          simp only [hrl, hpv]
          exact ⟨by intro req; simp, trivial⟩
        | ok t =>
          exfalso
          unfold refreshAccessTokenG at h
          rw [if_neg hid] at h
          simp only [hrl, hpv] at h
          simp at h

/-- Claim C10: atomicity of refresh on failure — in both revisions, when
the refresh-token lookup or the provider exchange fails, no write to the
token store is issued, and in the global-state revision the in-process
`accessToken`, `refreshToken` and `tokenExpiresAt` variables are left
unchanged. -/
theorem refresh_failure_atomic :
    (∀ (userId : String) (env : Env) (e : String),
      (refreshAccessToken userId env).1 = Except.error e →
      ∀ req, NetEvent.storePostTokens req ∉ (refreshAccessToken userId env).2) ∧
    (∀ (genv : GEnv) (st : GState) (e : String),
      (refreshAccessTokenG genv st).1 = Except.error e →
      (∀ req, GEvent.storePostTokens req ∉ (refreshAccessTokenG genv st).2.2) ∧
      (refreshAccessTokenG genv st).2.1 = st) :=
  ⟨fun userId env e h => refresh_err_no_write_aux userId env e h,
   fun genv st e h => refresh_err_atomic_auxG genv st e h⟩

/-- Claim C10 witness: under the rejecting provider of `envReject` and
`genvReject`, no store write is issued and the global state of
`gstExpired` is unchanged. -/
theorem refresh_failure_atomic_w :
    NetEvent.storePostTokens ⟨"42", "a2", "r2", 21700⟩ ∉
      (refreshAccessToken "42" envReject).2 ∧
    GEvent.storePostTokens ⟨"42", "r2", "a2", 21700⟩ ∉
      (refreshAccessTokenG genvReject gstExpired).2.2 ∧
    (refreshAccessTokenG genvReject gstExpired).2.1 = gstExpired :=
  ⟨refresh_failure_atomic.1 "42" envReject
      ("Strava token refresh failed: " ++ "invalid grant") rfl
      ⟨"42", "a2", "r2", 21700⟩,
   (refresh_failure_atomic.2 genvReject gstExpired
      ("Strava token refresh failed: " ++ "invalid grant") rfl).1
      ⟨"42", "r2", "a2", 21700⟩,
   (refresh_failure_atomic.2 genvReject gstExpired
      ("Strava token refresh failed: " ++ "invalid grant") rfl).2⟩
